import Mathlib

/-!
Shallow embedding of the actor-style message-passing core of the SOUL
repository, covering two concrete implementations:

* `Ablation3` — `Ablation_Study/Ablation_3_wo_Emo/core.py`
  (`Message` with `__post_init__`, `EventBus._deliver_message`,
  `BaseAgent.start/get_state/update_state`, `ConversationOrchestrator`).
* `Socratic` — `Socratic_QA_System/core.py`
  (`Message`, `EventBus._route_message`, `BaseAgent.start/send_message`,
  `ConversationOrchestrator.add_round`).
* `TeachingDialogue` — the collaborator call sites of
  `Teaching_Dialogue/teacher_agent.py` and
  `Teaching_Dialogue/conversation_analyzer.py`.

Python dictionaries keyed by strings are modelled as association lists
(first binding wins, as in the insertion-ordered `dict`); `uuid.uuid4()` is
modelled as an injective fresh-name supply threaded through message
construction; `datetime.now().isoformat()` and `time.time()` readings are
explicit string parameters; an exception raised by a callee is modelled as
`Except.error`.
-/

namespace Py

/-- Association-list lookup, modelling `d.get(k)` on a Python `dict`. -/
def alookup {α : Type} : List (String × α) → String → Option α
  | [], _ => none
  | (k', v) :: rest, k => if k' = k then some v else alookup rest k

/-- Association-list update, modelling `d[k] = v` on an insertion-ordered
Python `dict`: an existing binding is overwritten in place, a new key is
appended at the end. -/
def aset {α : Type} : List (String × α) → String → α → List (String × α)
  | [], k, v => [(k, v)]
  | (k', v') :: rest, k, v =>
      if k' = k then (k, v) :: rest else (k', v') :: aset rest k v

/-- Association-list deletion, modelling `del d[k]` / `d.pop(k, None)`. -/
def adel {α : Type} : List (String × α) → String → List (String × α)
  | [], _ => []
  | (k', v') :: rest, k => if k' = k then rest else (k', v') :: adel rest k

/-- Substring test on character lists: some suffix of `hay` starts with
`pat`. -/
def listContains (hay pat : List Char) : Bool :=
  (List.range (hay.length + 1)).any fun i => pat.isPrefixOf (hay.drop i)

/-- `pat in hay` on Python strings (substring containment). -/
def strIn (pat hay : String) : Bool :=
  listContains hay.toList pat.toList


end Py

namespace Ablation3

/-- `MessageType` enumeration of `Ablation_3_wo_Emo/core.py`. -/
inductive MessageType
  | TASK_REQUEST
  | TASK_RESPONSE
  | ANALYSIS_REQUEST
  | ANALYSIS_RESPONSE
  | REVIEW_REQUEST
  | REVIEW_RESPONSE
  | REFLECTION_REQUEST
  | REFLECTION_RESPONSE
  | SYSTEM_CONTROL
  | ERROR
  | TERMINATION
deriving DecidableEq, Repr

/-- The `Message` dataclass: id, sender, recipient, type, content payload
(an association list of string fields), timestamp, optional correlation id. -/
structure Message where
  id : String
  sender : String
  recipient : String
  type : MessageType
  content : List (String × String)
  timestamp : String
  correlation_id : Option String := none
deriving DecidableEq, Repr

/-- `uuid.uuid4()` modelled as an injective fresh-name supply: the `n`-th
draw is a nonempty string determined by `n`, and distinct draws differ. -/
def uuidString (n : Nat) : String :=
  String.mk (List.replicate (n + 1) 'u')

/-- `Message.__post_init__`: an empty `id` is replaced by a fresh uuid
(consuming one supply draw), an empty `timestamp` by the current time. -/
def Message.post_init (m : Message) (supply : Nat) (now : String) :
    Message × Nat :=
  let p := if m.id.isEmpty then ({ m with id := uuidString supply }, supply + 1)
           else (m, supply)
  (if p.1.timestamp.isEmpty then { p.1 with timestamp := now } else p.1, p.2)

/-- `Message(...)` construction: the dataclass runs `__post_init__`
immediately, so building a message with the given fields fills defaults. -/
def Message.make (id sender recipient : String) (type : MessageType)
    (content : List (String × String)) (timestamp : String)
    (correlation_id : Option String) (supply : Nat) (now : String) :
    Message × Nat :=
  Message.post_init
    { id := id, sender := sender, recipient := recipient, type := type,
      content := content, timestamp := timestamp,
      correlation_id := correlation_id } supply now

/-- The observable control state of a `BaseAgent`: the `running` flag, the
number of worker threads spawned so far (each `threading.Thread(...).start()`
adds one), the inbox queue, and — to model a subclass whose
`receive_message` raises — an optional failure reason. -/
structure BaseAgent where
  running : Bool
  spawned : Nat
  inbox : List Message
  recvFails : Option String := none
deriving DecidableEq, Repr

/-- `BaseAgent.start`: guarded by `if not self.running`; when already
running it is a no-op, otherwise it sets the flag and spawns a worker. -/
def BaseAgent.start (a : BaseAgent) : BaseAgent :=
  if a.running then a
  else { a with running := true, spawned := a.spawned + 1 }

/-- `receive_message`: the base class enqueues into the inbox; a subclass
override that raises is modelled by `recvFails = some reason`. -/
def BaseAgent.receive (a : BaseAgent) (m : Message) : Except String BaseAgent :=
  match a.recvFails with
  | some e => .error e
  | none => .ok { a with inbox := a.inbox ++ [m] }

/-- The `EventBus`: registry of named agents plus the single FIFO queue. -/
structure EventBus where
  agents : List (String × BaseAgent)
  message_queue : List Message
deriving DecidableEq, Repr

/-- `EventBus.send_message`: unconditionally enqueues (`queue.put`); it
never consults the registry and never raises to the caller. -/
def EventBus.send_message (b : EventBus) (m : Message) : EventBus :=
  { b with message_queue := b.message_queue ++ [m] }

/-- `EventBus._deliver_message`: look the recipient up in the registry; if
absent, log and drop.  If `receive_message` raises, catch, synthesize an
`ERROR` message (fresh id, payload carrying the reason and the original
message id) and hand it to the registered sender; a raise from the sender's
own `receive_message` escapes `_deliver_message` but is caught by the
`_process_messages` loop, so the bus state is simply left unchanged. -/
def EventBus.deliver_message (b : EventBus) (m : Message) (supply : Nat)
    (now : String) : EventBus × Nat :=
  match Py.alookup b.agents m.recipient with
  | none => (b, supply)
  | some r =>
    match r.receive m with
    | .ok r' => ({ b with agents := Py.aset b.agents m.recipient r' }, supply)
    | .error e =>
      let em := Message.make "" "event_bus" m.sender MessageType.ERROR
        [("error", e), ("original_message_id", m.id)] now none supply now
      match Py.alookup b.agents m.sender with
      | none => (b, em.2)
      | some s =>
        match s.receive em.1 with
        | .ok s' => ({ b with agents := Py.aset b.agents m.sender s' }, em.2)
        | .error _ => (b, em.2)

/-- The dispatcher loop `_process_messages` applied to a queue prefix:
deliver each message in FIFO order, threading the uuid supply. -/
def EventBus.process_all (b : EventBus) (ms : List Message) (supply : Nat)
    (now : String) : EventBus × Nat :=
  ms.foldl (fun acc m => EventBus.deliver_message acc.1 m acc.2 now) (b, supply)

/-- One entry of a conversation's `history` list. -/
structure HistoryEntry where
  sender : String
  content : String
  type : String
  timestamp : String
  round : Nat
deriving DecidableEq, Repr

/-- A conversation record as built by `start_conversation`. -/
structure Conversation where
  id : String
  participants : List String
  problem_content : String
  history : List HistoryEntry
  current_round : Nat
  status : String
  created_at : String
  ended_at : Option String := none
deriving DecidableEq, Repr

/-- `ConversationOrchestrator` state: the conversation dict plus the
configuration set in `__init__`. -/
structure ConversationOrchestrator where
  conversations : List (String × Conversation)
  max_rounds : Nat
  termination_keywords : List String
deriving DecidableEq, Repr

/-- `ConversationOrchestrator.__init__`: empty dict, `max_rounds = 7`,
the four closing keywords. -/
def ConversationOrchestrator.init : ConversationOrchestrator :=
  { conversations := [], max_rounds := 7,
    termination_keywords := ["理解了", "明白了", "谢谢", "结束"] }

/-- `start_conversation`: store a fresh `active` record (round 0, empty
history) and send a `TASK_REQUEST` to the first participant when one
exists.  Returns the new state, the messages sent to the bus, and the
advanced uuid supply.  (`initial_message` is accepted and unused, as in the
source.) -/
def ConversationOrchestrator.start_conversation (o : ConversationOrchestrator)
    (conversation_id : String) (participants : List String)
    (initial_message problem_content : String) (now : String) (supply : Nat) :
    ConversationOrchestrator × List Message × Nat :=
  let _ := initial_message
  let conv : Conversation :=
    { id := conversation_id, participants := participants,
      problem_content := problem_content, history := [], current_round := 0,
      status := "active", created_at := now }
  let o' := { o with conversations := Py.aset o.conversations conversation_id conv }
  let student := participants.headD ""
  if student.isEmpty then (o', [], supply)
  else
    let em := Message.make "" "orchestrator" student MessageType.TASK_REQUEST
      [("conversation_id", conversation_id),
       ("problem_content", problem_content),
       ("instruction", "start_conversation")] "" (some conversation_id) supply now
    (o', [em.1], em.2)

/-- `should_terminate_conversation`: an unknown id terminates; otherwise
the round cap is checked first, then the closing keywords against the last
message. -/
def ConversationOrchestrator.should_terminate_conversation
    (o : ConversationOrchestrator) (conversation_id last_message : String) :
    Bool :=
  match Py.alookup o.conversations conversation_id with
  | none => true
  | some conv =>
    if o.max_rounds ≤ conv.current_round then true
    else o.termination_keywords.any fun kw => Py.strIn kw last_message

/-- `add_message_to_conversation`: a no-op on an unknown id; otherwise the
round counter is bumped when the sender is `"student"`, then the entry is
appended carrying the (possibly bumped) round.  The record's `status` is
never consulted. -/
def ConversationOrchestrator.add_message_to_conversation
    (o : ConversationOrchestrator)
    (conversation_id sender content message_type now : String) :
    ConversationOrchestrator :=
  match Py.alookup o.conversations conversation_id with
  | none => o
  | some conv =>
    let conv :=
      if sender = "student" then { conv with current_round := conv.current_round + 1 }
      else conv
    let conv :=
      { conv with history := conv.history ++
          [{ sender := sender, content := content, type := message_type,
             timestamp := now, round := conv.current_round }] }
    { o with conversations := Py.aset o.conversations conversation_id conv }

/-- `get_conversation_history`: the record's history, or `[]` when the id
is unknown. -/
def ConversationOrchestrator.get_conversation_history
    (o : ConversationOrchestrator) (conversation_id : String) :
    List HistoryEntry :=
  match Py.alookup o.conversations conversation_id with
  | none => []
  | some conv => conv.history

/-- `end_conversation`: mark the record `completed`, stamp `ended_at`, and
send a `SYSTEM_CONTROL` notice to every participant. -/
def ConversationOrchestrator.end_conversation (o : ConversationOrchestrator)
    (conversation_id : String) (now : String) (supply : Nat) :
    ConversationOrchestrator × List Message × Nat :=
  match Py.alookup o.conversations conversation_id with
  | none => (o, [], supply)
  | some conv =>
    let conv' := { conv with status := "completed", ended_at := some now }
    let o' := { o with conversations := Py.aset o.conversations conversation_id conv' }
    let out := conv'.participants.foldl
      (fun (acc : List Message × Nat) p =>
        let em := Message.make "" "orchestrator" p MessageType.SYSTEM_CONTROL
          [("action", "conversation_ended"),
           ("conversation_id", conversation_id)] "" none acc.2 now
        (acc.1 ++ [em.1], em.2)) ([], supply)
    (o', out.1, out.2)

/-- The round counter an observer reads for a conversation id (0 when the
id is unknown). -/
def ConversationOrchestrator.roundOf (o : ConversationOrchestrator)
    (conversation_id : String) : Nat :=
  match Py.alookup o.conversations conversation_id with
  | none => 0
  | some conv => conv.current_round

/-- Arguments of one `add_message_to_conversation` call. -/
structure AddCall where
  conversation_id : String
  sender : String
  content : String
  message_type : String
  now : String
deriving DecidableEq, Repr

/-- Apply a sequence of `add_message_to_conversation` calls in order. -/
def ConversationOrchestrator.apply_adds (o : ConversationOrchestrator)
    (calls : List AddCall) : ConversationOrchestrator :=
  calls.foldl
    (fun acc c => acc.add_message_to_conversation c.conversation_id c.sender
      c.content c.message_type c.now) o

/-- A Python dict object on the heap: its top-level entries.  Values are
opaque strings; a shallow `copy()` duplicates only this entry list. -/
structure PyDictObj where
  entries : List (String × String)
deriving DecidableEq, Repr

/-- A heap of dict objects; a reference is an index, allocation appends. -/
abbrev Store := List PyDictObj

/-- Dereference, with the empty dict for a dangling reference. -/
def Store.getRef (st : Store) (r : Nat) : PyDictObj :=
  List.getD st r { entries := [] }

/-- `BaseAgent.get_state`: `return self.state.copy()` — allocate a fresh
dict with the same top-level entries and hand back its reference. -/
def Store.get_state (st : Store) (r : Nat) : Store × Nat :=
  (st ++ [st.getRef r], st.length)

/-- `BaseAgent.update_state` / `d[k] = v` at a reference: overwrite the
object in place. -/
def Store.update_state (st : Store) (r : Nat) (k v : String) : Store :=
  st.set r { entries := Py.aset (st.getRef r).entries k v }

/-- `del d[k]` at a reference: remove a top-level key in place. -/
def Store.del_key (st : Store) (r : Nat) (k : String) : Store :=
  st.set r { entries := Py.adel (st.getRef r).entries k }

end Ablation3

namespace Socratic

/-- `MessageType` enumeration of `Socratic_QA_System/core.py`. -/
inductive MessageType
  | TASK_REQUEST
  | TASK_RESPONSE
  | REVIEW_REQUEST
  | REVIEW_RESPONSE
  | ANALYSIS_REQUEST
  | DATA_REQUEST
  | SYSTEM_CONTROL
  | HEARTBEAT
deriving DecidableEq, Repr

/-- The plain `Message` dataclass of the Socratic system: no
`__post_init__`, no correlation id — every field is supplied by the
caller. -/
structure Message where
  id : String
  sender : String
  recipient : String
  type : MessageType
  content : List (String × String)
  timestamp : String
deriving DecidableEq, Repr

/-- Observable control state of the Socratic `BaseAgent` (same modelling
as `Ablation3.BaseAgent`). -/
structure BaseAgent where
  running : Bool
  spawned : Nat
  inbox : List Message
  recvFails : Option String := none
deriving DecidableEq, Repr

/-- `BaseAgent.start` in the Socratic core: **unguarded** — it sets
`running = True` and spawns a fresh worker thread on every call. -/
def BaseAgent.start (a : BaseAgent) : BaseAgent :=
  { a with running := true, spawned := a.spawned + 1 }

/-- `receive_message` (possibly a raising subclass override, as for the
Ablation agent). -/
def BaseAgent.receive (a : BaseAgent) (m : Message) : Except String BaseAgent :=
  match a.recvFails with
  | some e => .error e
  | none => .ok { a with inbox := a.inbox ++ [m] }

/-- `BaseAgent.send_message` builds its outgoing message with
`id = str(time.time())` and `timestamp = datetime.now().isoformat()`;
the two clock readings are explicit parameters. -/
def BaseAgent.send_message_make (name recipient : String) (type : MessageType)
    (content : List (String × String)) (timeStr nowIso : String) : Message :=
  { id := timeStr, sender := name, recipient := recipient, type := type,
    content := content, timestamp := nowIso }

/-- The Socratic `EventBus`: registry plus a plain list used as the FIFO
queue. -/
structure EventBus where
  agents : List (String × BaseAgent)
  message_queue : List Message
deriving DecidableEq, Repr

/-- `EventBus.send_message`: append to the queue under the lock; never
raises to the caller. -/
def EventBus.send_message (b : EventBus) (m : Message) : EventBus :=
  { b with message_queue := b.message_queue ++ [m] }

/-- `EventBus._route_message`: unknown recipients are logged and dropped;
a raising `receive_message` is caught and **only logged** — no error
message is synthesized and nothing is sent back to the sender. -/
def EventBus.route_message (b : EventBus) (m : Message) : EventBus :=
  match Py.alookup b.agents m.recipient with
  | none => b
  | some r =>
    match r.receive m with
    | .ok r' => { b with agents := Py.aset b.agents m.recipient r' }
    | .error _ => b

/-- The dispatcher loop `_process_messages` applied to a queue prefix. -/
def EventBus.route_all (b : EventBus) (ms : List Message) : EventBus :=
  ms.foldl EventBus.route_message b

/-- A Socratic conversation record as built by `start_conversation`:
`rounds` counter, status, and the per-round data dict (round payloads are
opaque strings). -/
structure Conversation where
  start_time : String
  rounds : Nat
  status : String
  data : List (String × String)
deriving DecidableEq, Repr

/-- Socratic orchestrator state: just the conversation dict. -/
structure ConversationOrchestrator where
  conversations : List (String × Conversation)
deriving DecidableEq, Repr

/-- `ConversationOrchestrator.add_round`: on a known id, increment
`rounds` and file the round payload under `round_{n}`; unknown ids are
ignored. -/
def ConversationOrchestrator.add_round (o : ConversationOrchestrator)
    (conversation_id : String) (round_data : String) :
    ConversationOrchestrator :=
  match Py.alookup o.conversations conversation_id with
  | none => o
  | some conv =>
    let n := conv.rounds + 1
    let conv' := { conv with
      rounds := n
      data := Py.aset conv.data ("round_" ++ toString n) round_data }
    { conversations := Py.aset o.conversations conversation_id conv' }

end Socratic

namespace TeachingDialogue

/-- The deterministic fallback reply of
`TeacherAgent._generate_teaching_response_with_knowledge`. -/
def teaching_response_fallback : String := "我理解你的困惑，让我们一起来解决这个问题。"

/-- The tail of `_generate_teaching_response_with_knowledge` after the
collaborator call: `result = response if response else fallback` — `None`
and the falsy empty string both yield the fallback. -/
def generate_teaching_response_with_knowledge (response : Option String) :
    String :=
  match response with
  | none => teaching_response_fallback
  | some r => if r.isEmpty then teaching_response_fallback else r

/-- Key-presence test on a parsed JSON object (fields as an association
list). -/
def hasKey (obj : List (String × String)) (k : String) : Bool :=
  (Py.alookup obj k).isSome

/-- `ConversationAnalyzer.analyze_conversation_end` after the collaborator
call: a `None` response **raises** (`Exception` with the quoted text)
instead of falling back; a parse failure or a missing required field
raises the wrapped parse error; otherwise the parsed object is returned
with `round_number` added.  `json.loads` is the `jsonLoads` parameter. -/
def analyze_conversation_end (response : Option String)
    (jsonLoads : String → Option (List (String × String)))
    (round_number : Nat) : Except String (List (String × String)) :=
  match response with
  | none => .error "对话分析器LLM调用失败：未获得有效响应"
  | some r =>
    match jsonLoads r with
    | none => .error "对话分析器LLM解析失败：invalid json"
    | some result =>
      if ¬ hasKey result "should_end" then
        .error "对话分析器LLM解析失败：LLM响应缺少should_end字段"
      else if ¬ hasKey result "reason" then
        .error "对话分析器LLM解析失败：LLM响应缺少reason字段"
      else if ¬ hasKey result "student_understanding" then
        .error "对话分析器LLM解析失败：LLM响应缺少student_understanding字段"
      else
        .ok (Py.aset result "round_number" (toString round_number))

end TeachingDialogue

/-! ## Helper lemmas -/

theorem py_alookup_aset_self {α : Type} (l : List (String × α)) (k : String) (v : α) :
    Py.alookup (Py.aset l k v) k = some v := by
  induction l with
  | nil => simp [Py.alookup, Py.aset]
  | cons hd tl ih =>
      by_cases h : hd.1 = k
      · simp [Py.aset, Py.alookup, h]
      · simp [Py.aset, Py.alookup, h, ih]

theorem py_alookup_aset_ne {α : Type} (l : List (String × α)) (k k' : String) (v : α)
    (h : k ≠ k') : Py.alookup (Py.aset l k v) k' = Py.alookup l k' := by
  induction l with
  | nil => simp [Py.alookup, Py.aset, h]
  | cons hd tl ih =>
      by_cases hh : hd.1 = k
      · simp [Py.aset, Py.alookup, hh, h]
      · by_cases hk' : hd.1 = k'
        · simp [Py.aset, Py.alookup, hh, hk', Ne.symm h]
        · simp [Py.aset, Py.alookup, hh, hk', ih]

theorem ablation3_add_message_roundOf_le (o : Ablation3.ConversationOrchestrator)
    (cid sender content mtype now cid' : String) :
    o.roundOf cid' ≤
      (o.add_message_to_conversation cid sender content mtype now).roundOf cid' := by
  unfold Ablation3.ConversationOrchestrator.add_message_to_conversation
  cases h : Py.alookup o.conversations cid with
  | none => exact Nat.le_refl _
  | some conv =>
      unfold Ablation3.ConversationOrchestrator.roundOf
      by_cases hc : cid = cid'
      · subst hc
        rw [py_alookup_aset_self, h]
        by_cases hs : sender = "student" <;> simp [hs]
      · rw [py_alookup_aset_ne _ _ _ _ hc]

theorem ablation3_apply_adds_roundOf_le (o : Ablation3.ConversationOrchestrator)
    (calls : List Ablation3.AddCall) (cid' : String) :
    o.roundOf cid' ≤ (o.apply_adds calls).roundOf cid' := by
  induction calls generalizing o with
  | nil => exact Nat.le_refl _
  | cons c cs ih =>
      unfold Ablation3.ConversationOrchestrator.apply_adds
      simp only [List.foldl_cons]
      exact Nat.le_trans
        (ablation3_add_message_roundOf_le o c.conversation_id c.sender c.content
          c.message_type c.now cid')
        (ih _)

/-! ## Claim theorems -/

/-- C9: `should_terminate_conversation` called with a conversation id that
has no record returns `true` (the model is a total function, so no
exception is possible): an unknown conversation is always judged
to-be-terminated. -/
theorem c9_unknown_conversation_terminates
    (o : Ablation3.ConversationOrchestrator) (cid last_message : String)
    (h : Py.alookup o.conversations cid = none) :
    o.should_terminate_conversation cid last_message = true := by
  unfold Ablation3.ConversationOrchestrator.should_terminate_conversation
  rw [h]

theorem c9_witness :
    Py.alookup (Ablation3.ConversationOrchestrator.init).conversations "c1" = none ∧
    (Ablation3.ConversationOrchestrator.init).should_terminate_conversation "c1" "你好" = true :=
  ⟨rfl, c9_unknown_conversation_terminates _ _ "你好" rfl⟩

/-- C7: for an existing conversation, `should_terminate_conversation`
checks the round cap first — whenever `current_round ≥ max_rounds` it
returns `true` regardless of the latest message — and below the cap it
returns `true` exactly when some configured closing keyword occurs in the
latest message; the configured maximum defaults to 7. -/
theorem c7_round_cap_then_keywords
    (o : Ablation3.ConversationOrchestrator) (cid last_message : String)
    (conv : Ablation3.Conversation)
    (h : Py.alookup o.conversations cid = some conv) :
    (o.max_rounds ≤ conv.current_round →
        o.should_terminate_conversation cid last_message = true) ∧
    (conv.current_round < o.max_rounds →
        o.should_terminate_conversation cid last_message
          = o.termination_keywords.any fun kw => Py.strIn kw last_message) ∧
    Ablation3.ConversationOrchestrator.init.max_rounds = 7 := by
  unfold Ablation3.ConversationOrchestrator.should_terminate_conversation
  rw [h]
  refine ⟨fun hcap => ?_, fun hlt => ?_, rfl⟩
  · simp [hcap]
  · simp [Nat.not_le.mpr hlt]

theorem c7_witness :
    let conv : Ablation3.Conversation :=
      { id := "c1", participants := ["student", "teacher"], problem_content := "p",
        history := [], current_round := 2, status := "active", created_at := "t0" }
    let o : Ablation3.ConversationOrchestrator :=
      { conversations := [("c1", conv)], max_rounds := 7,
        termination_keywords := ["理解了", "明白了", "谢谢", "结束"] }
    (o.max_rounds ≤ conv.current_round →
        o.should_terminate_conversation "c1" "老师我明白了" = true) ∧
    (conv.current_round < o.max_rounds →
        o.should_terminate_conversation "c1" "老师我明白了"
          = o.termination_keywords.any fun kw => Py.strIn kw "老师我明白了") ∧
    Ablation3.ConversationOrchestrator.init.max_rounds = 7 :=
  c7_round_cap_then_keywords _ "c1" "老师我明白了" _ rfl

/-- C2: on an existing conversation, `add_message_to_conversation`
increments `current_round` by exactly 1 when the sender is `"student"` and
leaves it unchanged for any other sender, appending exactly one history
entry either way; and over any sequence of such calls the round counter of
every conversation is monotonically non-decreasing. -/
theorem c2_round_increment_student_only
    (o : Ablation3.ConversationOrchestrator)
    (cid sender content mtype now : String) (conv : Ablation3.Conversation)
    (h : Py.alookup o.conversations cid = some conv) :
    ((o.add_message_to_conversation cid sender content mtype now).roundOf cid
        = if sender = "student" then conv.current_round + 1 else conv.current_round) ∧
    ((o.add_message_to_conversation cid sender content mtype now).get_conversation_history cid
        = conv.history ++
          [{ sender := sender, content := content, type := mtype, timestamp := now,
             round := if sender = "student" then conv.current_round + 1
                      else conv.current_round }]) ∧
    (∀ (o₂ : Ablation3.ConversationOrchestrator) (calls : List Ablation3.AddCall)
        (cid₂ : String), o₂.roundOf cid₂ ≤ (o₂.apply_adds calls).roundOf cid₂) := by
  refine ⟨?_, ?_, fun o₂ calls cid₂ => ablation3_apply_adds_roundOf_le o₂ calls cid₂⟩
  · unfold Ablation3.ConversationOrchestrator.add_message_to_conversation
      Ablation3.ConversationOrchestrator.roundOf
    rw [h]
    by_cases hs : sender = "student" <;>
      simp [hs, py_alookup_aset_self]
  · unfold Ablation3.ConversationOrchestrator.add_message_to_conversation
      Ablation3.ConversationOrchestrator.get_conversation_history
    rw [h]
    by_cases hs : sender = "student" <;>
      simp [hs, py_alookup_aset_self]

theorem c2_witness :
    let conv : Ablation3.Conversation :=
      { id := "c1", participants := ["student"], problem_content := "p",
        history := [], current_round := 4, status := "active", created_at := "t0" }
    let o : Ablation3.ConversationOrchestrator :=
      { conversations := [("c1", conv)], max_rounds := 7, termination_keywords := [] }
    ((o.add_message_to_conversation "c1" "student" "嗯" "message" "t1").roundOf "c1"
        = if "student" = "student" then conv.current_round + 1 else conv.current_round) ∧
    ((o.add_message_to_conversation "c1" "student" "嗯" "message" "t1").get_conversation_history "c1"
        = conv.history ++
          [{ sender := "student", content := "嗯", type := "message", timestamp := "t1",
             round := if "student" = "student" then conv.current_round + 1
                      else conv.current_round }]) ∧
    (∀ (o₂ : Ablation3.ConversationOrchestrator) (calls : List Ablation3.AddCall)
        (cid₂ : String), o₂.roundOf cid₂ ≤ (o₂.apply_adds calls).roundOf cid₂) :=
  c2_round_increment_student_only _ "c1" "student" "嗯" "message" "t1" _ rfl

/-- C1 counterexample: run `start_conversation`, then `end_conversation`
(the record's status is `"completed"`), then one more
`add_message_to_conversation` with the learner sender — the call is *not*
a no-op: a history entry is appended and `current_round` rises from 0
to 1. -/
theorem c1_counterexample :
    let o1 := (Ablation3.ConversationOrchestrator.init.start_conversation
      "c1" ["student", "teacher"] "" "题目" "t0" 0).1
    let o2 := (o1.end_conversation "c1" "t1" 1).1
    let o3 := o2.add_message_to_conversation "c1" "student" "再问一个问题" "message" "t2"
    ((Py.alookup o2.conversations "c1").map Ablation3.Conversation.status
        = some "completed") ∧
    o2.get_conversation_history "c1" = [] ∧
    o2.roundOf "c1" = 0 ∧
    o3.get_conversation_history "c1"
        = [{ sender := "student", content := "再问一个问题", type := "message",
             timestamp := "t2", round := 1 }] ∧
    o3.roundOf "c1" = 1 := by
  decide

/-- C1 (amended): `add_message_to_conversation` never consults the
record's status, so a conversation that has reached `"completed"` still
gets the entry appended and the round counter incremented for a learner
sender, its status staying `"completed"`; the call is a no-op only when
the conversation id has no record. -/
theorem c1_amended_completed_not_terminal
    (o : Ablation3.ConversationOrchestrator)
    (cid sender content mtype now : String) (conv : Ablation3.Conversation)
    (h : Py.alookup o.conversations cid = some conv)
    (hc : conv.status = "completed") :
    ((o.add_message_to_conversation cid sender content mtype now).roundOf cid
        = if sender = "student" then conv.current_round + 1 else conv.current_round) ∧
    ((o.add_message_to_conversation cid sender content mtype now).get_conversation_history cid
        = conv.history ++
          [{ sender := sender, content := content, type := mtype, timestamp := now,
             round := if sender = "student" then conv.current_round + 1
                      else conv.current_round }]) ∧
    ((Py.alookup (o.add_message_to_conversation cid sender content mtype now).conversations
        cid).map Ablation3.Conversation.status = some "completed") ∧
    (∀ (o₂ : Ablation3.ConversationOrchestrator) (cid₂ s c t n : String),
        Py.alookup o₂.conversations cid₂ = none →
        o₂.add_message_to_conversation cid₂ s c t n = o₂) := by
  refine ⟨?_, ?_, ?_, ?_⟩
  · unfold Ablation3.ConversationOrchestrator.add_message_to_conversation
      Ablation3.ConversationOrchestrator.roundOf
    rw [h]
    by_cases hs : sender = "student" <;> simp [hs, py_alookup_aset_self]
  · unfold Ablation3.ConversationOrchestrator.add_message_to_conversation
      Ablation3.ConversationOrchestrator.get_conversation_history
    rw [h]
    by_cases hs : sender = "student" <;> simp [hs, py_alookup_aset_self]
  · unfold Ablation3.ConversationOrchestrator.add_message_to_conversation
    rw [h]
    by_cases hs : sender = "student" <;> simp [hs, py_alookup_aset_self, hc]
  · intro o₂ cid₂ s c t n hnone
    unfold Ablation3.ConversationOrchestrator.add_message_to_conversation
    rw [hnone]

theorem c1_witness :
    let conv : Ablation3.Conversation :=
      { id := "c1", participants := ["student"], problem_content := "p",
        history := [], current_round := 3, status := "completed",
        created_at := "t0", ended_at := some "t9" }
    let o : Ablation3.ConversationOrchestrator :=
      { conversations := [("c1", conv)], max_rounds := 7, termination_keywords := [] }
    ((o.add_message_to_conversation "c1" "student" "还有疑问" "message" "t1").roundOf "c1"
        = if "student" = "student" then conv.current_round + 1 else conv.current_round) ∧
    ((o.add_message_to_conversation "c1" "student" "还有疑问" "message" "t1").get_conversation_history "c1"
        = conv.history ++
          [{ sender := "student", content := "还有疑问", type := "message", timestamp := "t1",
             round := if "student" = "student" then conv.current_round + 1
                      else conv.current_round }]) ∧
    ((Py.alookup (o.add_message_to_conversation "c1" "student" "还有疑问" "message" "t1").conversations
        "c1").map Ablation3.Conversation.status = some "completed") ∧
    (∀ (o₂ : Ablation3.ConversationOrchestrator) (cid₂ s c t n : String),
        Py.alookup o₂.conversations cid₂ = none →
        o₂.add_message_to_conversation cid₂ s c t n = o₂) :=
  c1_amended_completed_not_terminal _ "c1" "student" "还有疑问" "message" "t1" _ rfl rfl

/-- C5: in both cores, `send_message` only appends to the queue — it never
consults the registry, so it cannot raise to the sender — and when the
dispatcher pops a message whose recipient is unregistered it leaves the
bus state untouched (no retry, no dead-letter storage) and goes on to
dispatch the remaining queued messages. -/
theorem c5_drop_on_unknown_recipient :
    (∀ (b : Ablation3.EventBus) (m : Ablation3.Message),
        b.send_message m = { b with message_queue := b.message_queue ++ [m] }) ∧
    (∀ (b : Ablation3.EventBus) (m : Ablation3.Message) (supply : Nat) (now : String),
        Py.alookup b.agents m.recipient = none →
        b.deliver_message m supply now = (b, supply)) ∧
    (∀ (b : Ablation3.EventBus) (m : Ablation3.Message) (rest : List Ablation3.Message)
        (supply : Nat) (now : String),
        Py.alookup b.agents m.recipient = none →
        b.process_all (m :: rest) supply now = b.process_all rest supply now) ∧
    (∀ (b : Socratic.EventBus) (m : Socratic.Message),
        b.send_message m = { b with message_queue := b.message_queue ++ [m] }) ∧
    (∀ (b : Socratic.EventBus) (m : Socratic.Message),
        Py.alookup b.agents m.recipient = none → b.route_message m = b) ∧
    (∀ (b : Socratic.EventBus) (m : Socratic.Message) (rest : List Socratic.Message),
        Py.alookup b.agents m.recipient = none →
        b.route_all (m :: rest) = b.route_all rest) := by
  have hdel : ∀ (b : Ablation3.EventBus) (m : Ablation3.Message) (supply : Nat)
      (now : String), Py.alookup b.agents m.recipient = none →
      b.deliver_message m supply now = (b, supply) := by
    intro b m supply now h
    unfold Ablation3.EventBus.deliver_message
    rw [h]
  have hroute : ∀ (b : Socratic.EventBus) (m : Socratic.Message),
      Py.alookup b.agents m.recipient = none → b.route_message m = b := by
    intro b m h
    unfold Socratic.EventBus.route_message
    rw [h]
  refine ⟨fun b m => rfl, hdel, ?_, fun b m => rfl, hroute, ?_⟩
  · intro b m rest supply now h
    unfold Ablation3.EventBus.process_all
    simp only [List.foldl_cons]
    rw [hdel b m supply now h]
  · intro b m rest h
    unfold Socratic.EventBus.route_all
    simp only [List.foldl_cons]
    rw [hroute b m h]

theorem c5_witness :
    let b : Ablation3.EventBus := { agents := [], message_queue := [] }
    let m : Ablation3.Message :=
      { id := "m1", sender := "teacher", recipient := "ghost",
        type := Ablation3.MessageType.TASK_REQUEST, content := [], timestamp := "t" }
    let sb : Socratic.EventBus := { agents := [], message_queue := [] }
    let sm : Socratic.Message :=
      { id := "m2", sender := "teacher", recipient := "ghost",
        type := Socratic.MessageType.TASK_REQUEST, content := [], timestamp := "t" }
    b.send_message m = { b with message_queue := b.message_queue ++ [m] } ∧
    b.deliver_message m 0 "t" = (b, 0) ∧
    b.process_all [m] 0 "t" = b.process_all [] 0 "t" ∧
    sb.send_message sm = { sb with message_queue := sb.message_queue ++ [sm] } ∧
    sb.route_message sm = sb ∧
    sb.route_all [sm] = sb.route_all [] :=
  ⟨c5_drop_on_unknown_recipient.1 _ _,
   c5_drop_on_unknown_recipient.2.1 _ _ 0 "t" rfl,
   c5_drop_on_unknown_recipient.2.2.1 _ _ [] 0 "t" rfl,
   c5_drop_on_unknown_recipient.2.2.2.1 _ _,
   c5_drop_on_unknown_recipient.2.2.2.2.1 _ _ rfl,
   c5_drop_on_unknown_recipient.2.2.2.2.2 _ _ [] rfl⟩

/-- C6 counterexample: the Socratic `BaseAgent.start` has no
already-running guard — on an agent that is already running (after one
`start`), a second `start` spawns a second worker thread, so
`start();start()` is not equivalent to a single `start()`. -/
theorem c6_counterexample :
    let a : Socratic.BaseAgent := { running := false, spawned := 0, inbox := [] }
    a.start.running = true ∧
    a.start.spawned = 1 ∧
    a.start.start.spawned = 2 ∧
    a.start.start ≠ a.start := by
  decide

/-- C6 (amended): the Ablation-core `BaseAgent.start` is idempotent — a
no-op whenever the agent is already running, so `start();start()` equals a
single `start()` — but the Socratic-core `BaseAgent.start` is unguarded
and spawns one more worker thread on every call. -/
theorem c6_amended_start_idempotent_ablation_only :
    (∀ a : Ablation3.BaseAgent, a.running = true → a.start = a) ∧
    (∀ a : Ablation3.BaseAgent, a.start.start = a.start) ∧
    (∀ a : Socratic.BaseAgent, a.start.spawned = a.spawned + 1) := by
  refine ⟨fun a h => ?_, fun a => ?_, fun a => rfl⟩
  · unfold Ablation3.BaseAgent.start
    rw [h]
    rfl
  · unfold Ablation3.BaseAgent.start
    by_cases h : a.running <;> simp [h]

theorem c6_witness :
    (Ablation3.BaseAgent.start { running := true, spawned := 3, inbox := [] }
        = { running := true, spawned := 3, inbox := [] }) ∧
    (Ablation3.BaseAgent.start (Ablation3.BaseAgent.start
        { running := false, spawned := 0, inbox := [] })
      = Ablation3.BaseAgent.start { running := false, spawned := 0, inbox := [] }) ∧
    (Socratic.BaseAgent.start { running := true, spawned := 1, inbox := [] }).spawned
        = 2 :=
  ⟨c6_amended_start_idempotent_ablation_only.1 _ rfl,
   c6_amended_start_idempotent_ablation_only.2.1 _,
   c6_amended_start_idempotent_ablation_only.2.2 _⟩

/-- C4 counterexample: in the Socratic core, a queued message to a
registered recipient whose `receive_message` raises is caught and only
logged — the bus is left completely unchanged, and in particular the
registered sender's inbox stays empty: no error-kind message is
synthesized or delivered back, contradicting the claim. -/
theorem c4_counterexample :
    let alice : Socratic.BaseAgent := { running := true, spawned := 1, inbox := [] }
    let bob : Socratic.BaseAgent :=
      { running := true, spawned := 1, inbox := [], recvFails := some "boom" }
    let b : Socratic.EventBus :=
      { agents := [("alice", alice), ("bob", bob)], message_queue := [] }
    let m : Socratic.Message :=
      { id := "m1", sender := "alice", recipient := "bob",
        type := Socratic.MessageType.TASK_REQUEST, content := [], timestamp := "t" }
    Py.alookup b.agents "bob" = some bob ∧
    bob.receive m = Except.error "boom" ∧
    Py.alookup b.agents "alice" = some alice ∧
    b.route_message m = b ∧
    (Py.alookup (b.route_message m).agents "alice").map Socratic.BaseAgent.inbox
        = some [] :=
  ⟨rfl, rfl, rfl, rfl, rfl⟩

/-- C4 (amended): the Ablation-core dispatcher behaves as claimed — when a
registered recipient's `receive_message` raises, it synthesizes an
`ERROR`-kind message with a fresh id whose payload carries the failure
reason and the original message id, appends it to the registered sender's
inbox, and continues with the rest of the queue — while the Socratic-core
dispatcher merely catches, logs and continues, sending nothing back. -/
theorem c4_amended_error_reply_ablation_only
    (b : Ablation3.EventBus) (m : Ablation3.Message) (supply : Nat) (now : String)
    (r s : Ablation3.BaseAgent) (e : String)
    (hr : Py.alookup b.agents m.recipient = some r)
    (hf : r.recvFails = some e)
    (hs : Py.alookup b.agents m.sender = some s)
    (hok : s.recvFails = none) :
    (Py.alookup (b.deliver_message m supply now).1.agents m.sender).map
        Ablation3.BaseAgent.inbox
      = some (s.inbox ++
          [{ id := Ablation3.uuidString supply, sender := "event_bus",
             recipient := m.sender, type := Ablation3.MessageType.ERROR,
             content := [("error", e), ("original_message_id", m.id)],
             timestamp := now }]) ∧
    (b.deliver_message m supply now).2 = supply + 1 ∧
    (∀ rest : List Ablation3.Message,
        b.process_all (m :: rest) supply now
          = Ablation3.EventBus.process_all (b.deliver_message m supply now).1 rest
              (supply + 1) now) ∧
    (∀ (sb : Socratic.EventBus) (sm : Socratic.Message) (sr : Socratic.BaseAgent)
        (se : String), Py.alookup sb.agents sm.recipient = some sr →
        sr.recvFails = some se → sb.route_message sm = sb) := by
  have hm2 : (b.deliver_message m supply now).2 = supply + 1 := by
    simp only [Ablation3.EventBus.deliver_message, hr, Ablation3.BaseAgent.receive,
      hf, hs, hok, Ablation3.Message.make, Ablation3.Message.post_init]
    rfl
  refine ⟨?_, hm2, ?_, ?_⟩
  · simp only [Ablation3.EventBus.deliver_message, hr, Ablation3.BaseAgent.receive,
      hf, hs, hok, Ablation3.Message.make, Ablation3.Message.post_init]
    simp only [py_alookup_aset_self, Option.map_some']
    simp [show "".isEmpty = true from rfl]
  · intro rest
    unfold Ablation3.EventBus.process_all
    simp only [List.foldl_cons]
    have hpair : b.deliver_message m supply now
        = ((b.deliver_message m supply now).1, supply + 1) := by
      rw [← hm2]
    conv_lhs => rw [hpair]
  · intro sb sm sr se hsr hse
    simp only [Socratic.EventBus.route_message, hsr, Socratic.BaseAgent.receive, hse]

theorem c4_witness :
    let alice : Ablation3.BaseAgent := { running := true, spawned := 1, inbox := [] }
    let bob : Ablation3.BaseAgent :=
      { running := true, spawned := 1, inbox := [], recvFails := some "boom" }
    let b : Ablation3.EventBus :=
      { agents := [("alice", alice), ("bob", bob)], message_queue := [] }
    let m : Ablation3.Message :=
      { id := "m1", sender := "alice", recipient := "bob",
        type := Ablation3.MessageType.TASK_REQUEST, content := [], timestamp := "t" }
    (Py.alookup (b.deliver_message m 5 "T").1.agents m.sender).map
        Ablation3.BaseAgent.inbox
      = some (alice.inbox ++
          [{ id := Ablation3.uuidString 5, sender := "event_bus",
             recipient := m.sender, type := Ablation3.MessageType.ERROR,
             content := [("error", "boom"), ("original_message_id", m.id)],
             timestamp := "T" }]) ∧
    (b.deliver_message m 5 "T").2 = 5 + 1 ∧
    (∀ rest : List Ablation3.Message,
        b.process_all (m :: rest) 5 "T"
          = Ablation3.EventBus.process_all (b.deliver_message m 5 "T").1 rest
              (5 + 1) "T") ∧
    (∀ (sb : Socratic.EventBus) (sm : Socratic.Message) (sr : Socratic.BaseAgent)
        (se : String), Py.alookup sb.agents sm.recipient = some sr →
        sr.recvFails = some se → sb.route_message sm = sb) := by
  exact c4_amended_error_reply_ablation_only
    { agents := [("alice", { running := true, spawned := 1, inbox := [] }),
                 ("bob", { running := true, spawned := 1, inbox := [],
                           recvFails := some "boom" })], message_queue := [] }
    { id := "m1", sender := "alice", recipient := "bob",
      type := Ablation3.MessageType.TASK_REQUEST, content := [], timestamp := "t" }
    5 "T"
    { running := true, spawned := 1, inbox := [], recvFails := some "boom" }
    { running := true, spawned := 1, inbox := [] }
    "boom" rfl rfl rfl rfl

/-- C3 counterexample: at the `ConversationAnalyzer.analyze_conversation_end`
call site, a null collaborator return is **not** absorbed into a fallback
string — it is propagated as a raised exception (here the `Except.error`
value with the source's message text), so the site's produced content is
not a deterministic fallback. -/
theorem c3_counterexample :
    TeachingDialogue.analyze_conversation_end none (fun _ => none) 3
      = Except.error "对话分析器LLM调用失败：未获得有效响应" :=
  rfl

/-- C3 (amended): the teaching-response call site does absorb a null (or
falsy empty) collaborator result into its documented deterministic
fallback string, but `analyze_conversation_end` raises an exception on a
null result for every parser and round number instead of substituting a
fallback. -/
theorem c3_amended_fallback_not_universal :
    TeachingDialogue.generate_teaching_response_with_knowledge none
        = TeachingDialogue.teaching_response_fallback ∧
    TeachingDialogue.generate_teaching_response_with_knowledge (some "")
        = TeachingDialogue.teaching_response_fallback ∧
    (∀ r : String, r.isEmpty = false →
        TeachingDialogue.generate_teaching_response_with_knowledge (some r) = r) ∧
    (∀ (jsonLoads : String → Option (List (String × String))) (round_number : Nat),
        TeachingDialogue.analyze_conversation_end none jsonLoads round_number
          = Except.error "对话分析器LLM调用失败：未获得有效响应") := by
  refine ⟨rfl, rfl, fun r hr => ?_, fun p n => rfl⟩
  simp [TeachingDialogue.generate_teaching_response_with_knowledge, hr]

theorem c3_witness :
    TeachingDialogue.generate_teaching_response_with_knowledge none
        = TeachingDialogue.teaching_response_fallback ∧
    "好".isEmpty = false ∧
    TeachingDialogue.generate_teaching_response_with_knowledge (some "好") = "好" ∧
    TeachingDialogue.analyze_conversation_end none (fun _ => none) 1
        = Except.error "对话分析器LLM调用失败：未获得有效响应" :=
  ⟨c3_amended_fallback_not_universal.1, rfl,
   c3_amended_fallback_not_universal.2.2.1 "好" rfl,
   c3_amended_fallback_not_universal.2.2.2 (fun _ => none) 1⟩

/-- C8 counterexample: the Socratic `BaseAgent.send_message` construction
path sets `id = str(time.time())`, so two distinct messages built at the
same clock reading carry the same id — ids on this construction path can
be reused. -/
theorem c8_counterexample :
    let m1 := Socratic.BaseAgent.send_message_make "teacher" "student"
      Socratic.MessageType.TASK_RESPONSE [("k", "v1")] "1714.25" "T1"
    let m2 := Socratic.BaseAgent.send_message_make "teacher" "orchestrator"
      Socratic.MessageType.SYSTEM_CONTROL [("k", "v2")] "1714.25" "T1"
    m1 ≠ m2 ∧ m1.id = m2.id := by
  decide

/-- C8 (amended): in the Ablation core, `Message.__post_init__` fills an
absent id with a fresh uuid draw and an absent timestamp with the current
time, advancing the supply so distinct draws are never reused (the fresh
ids of two different supply states differ); but in the Socratic core the
`send_message` path takes the clock reading itself as the id, so messages
built at equal clock readings share an id. -/
theorem c8_amended_fresh_ids_ablation_only
    (m : Ablation3.Message) (supply n1 n2 : Nat) (now : String)
    (hid : m.id = "") (hts : m.timestamp = "") (hne : n1 ≠ n2) :
    (m.post_init supply now).1.id = Ablation3.uuidString supply ∧
    (m.post_init supply now).1.timestamp = now ∧
    (m.post_init supply now).2 = supply + 1 ∧
    Ablation3.uuidString n1 ≠ Ablation3.uuidString n2 ∧
    (∀ (name recipient : String) (ty : Socratic.MessageType)
        (content : List (String × String)) (timeStr nowIso : String),
        (Socratic.BaseAgent.send_message_make name recipient ty content
            timeStr nowIso).id = timeStr) := by
  have hmid : m.id.isEmpty = true := by rw [hid]; rfl
  have huuid : (Ablation3.uuidString supply).isEmpty = false := by
    unfold Ablation3.uuidString
    rfl
  refine ⟨?_, ?_, ?_, ?_, fun name recipient ty content timeStr nowIso => rfl⟩
  · unfold Ablation3.Message.post_init
    simp [hmid, hts, show "".isEmpty = true from rfl]
  · unfold Ablation3.Message.post_init
    simp [hmid, hts, show "".isEmpty = true from rfl]
  · unfold Ablation3.Message.post_init
    simp [hmid, hts, show "".isEmpty = true from rfl]
  · intro h
    apply hne
    have hlen := congrArg (fun s : String => s.data.length) h
    simpa [Ablation3.uuidString] using hlen

theorem c8_witness :
    let m : Ablation3.Message :=
      { id := "", sender := "student", recipient := "teacher",
        type := Ablation3.MessageType.TASK_REQUEST, content := [], timestamp := "" }
    (m.post_init 0 "T").1.id = Ablation3.uuidString 0 ∧
    (m.post_init 0 "T").1.timestamp = "T" ∧
    (m.post_init 0 "T").2 = 0 + 1 ∧
    Ablation3.uuidString 0 ≠ Ablation3.uuidString 1 ∧
    (∀ (name recipient : String) (ty : Socratic.MessageType)
        (content : List (String × String)) (timeStr nowIso : String),
        (Socratic.BaseAgent.send_message_make name recipient ty content
            timeStr nowIso).id = timeStr) :=
  c8_amended_fresh_ids_ablation_only
    { id := "", sender := "student", recipient := "teacher",
      type := Ablation3.MessageType.TASK_REQUEST, content := [], timestamp := "" }
    0 0 1 "T" rfl rfl (by decide)

theorem store_getRef_append (st : Ablation3.Store) (x : Ablation3.PyDictObj)
    (r : Nat) (h : r < st.length) :
    Ablation3.Store.getRef (st ++ [x]) r = st.getRef r :=
  List.getD_append st [x] _ r h

theorem store_getRef_append_len (st : Ablation3.Store) (x : Ablation3.PyDictObj) :
    Ablation3.Store.getRef (st ++ [x]) st.length = x := by
  unfold Ablation3.Store.getRef
  rw [List.getD_append_right st [x] _ st.length (Nat.le_refl _)]
  simp

theorem store_getRef_set_ne (st : Ablation3.Store) (i j : Nat)
    (x : Ablation3.PyDictObj) (h : i ≠ j) :
    Ablation3.Store.getRef (st.set i x) j = st.getRef j := by
  unfold Ablation3.Store.getRef
  rw [List.getD_eq_getD_get?, List.getD_eq_getD_get?, List.get?_eq_getElem?,
    List.get?_eq_getElem?, List.getElem?_set_ne h]

/-- C10: `get_state` returns a shallow copy of the agent's state dict —
the fresh reference holds the same top-level entries, mutating the
returned dict at the top level (adding/replacing or removing a key)
leaves the agent's own dict unchanged, and a later `update_state` on the
agent's dict does not alter the previously returned copy. -/
theorem c10_get_state_shallow_copy (st : Ablation3.Store) (r : Nat)
    (h : r < st.length) :
    ((st.get_state r).1.getRef (st.get_state r).2 = st.getRef r) ∧
    (∀ k v : String,
        Ablation3.Store.getRef ((st.get_state r).1.update_state (st.get_state r).2 k v) r
          = st.getRef r) ∧
    (∀ k : String,
        Ablation3.Store.getRef ((st.get_state r).1.del_key (st.get_state r).2 k) r
          = st.getRef r) ∧
    (∀ k v : String,
        Ablation3.Store.getRef ((st.get_state r).1.update_state r k v) (st.get_state r).2
          = st.getRef r) := by
  have hne : st.length ≠ r := (Nat.ne_of_lt h).symm
  refine ⟨store_getRef_append_len st _, fun k v => ?_, fun k => ?_, fun k v => ?_⟩
  · unfold Ablation3.Store.get_state Ablation3.Store.update_state
    rw [store_getRef_set_ne _ _ _ _ hne, store_getRef_append st _ r h]
  · unfold Ablation3.Store.get_state Ablation3.Store.del_key
    rw [store_getRef_set_ne _ _ _ _ hne, store_getRef_append st _ r h]
  · unfold Ablation3.Store.get_state Ablation3.Store.update_state
    rw [store_getRef_set_ne _ _ _ _ (Nat.ne_of_lt h), store_getRef_append_len st _]

theorem c10_witness :
    let st : Ablation3.Store := [{ entries := [("a", "1")] }, { entries := [] }]
    (0 : Nat) < st.length ∧
    ((st.get_state 0).1.getRef (st.get_state 0).2 = st.getRef 0) ∧
    (Ablation3.Store.getRef ((st.get_state 0).1.update_state (st.get_state 0).2 "b" "2") 0
        = st.getRef 0) ∧
    (Ablation3.Store.getRef ((st.get_state 0).1.del_key (st.get_state 0).2 "a") 0
        = st.getRef 0) ∧
    (Ablation3.Store.getRef ((st.get_state 0).1.update_state 0 "a" "9") (st.get_state 0).2
        = st.getRef 0) := by
  refine ⟨by decide, ?_, ?_, ?_, ?_⟩
  · exact (c10_get_state_shallow_copy _ 0 (by decide)).1
  · exact (c10_get_state_shallow_copy _ 0 (by decide)).2.1 "b" "2"
  · exact (c10_get_state_shallow_copy _ 0 (by decide)).2.2.1 "a"
  · exact (c10_get_state_shallow_copy _ 0 (by decide)).2.2.2 "a" "9"
